import Mathlib

/-!
Shallow embedding of the Hero Squad Optimizer analysis pipeline
(feature extraction, heuristic scoring, recommendation composition,
POST orchestration) and proofs of its specified properties.

Numbers are modelled as rationals; the JavaScript idiom `v || 0` on an
optional numeric attribute is modelled by `Option.getD 0`, and on a
required numeric attribute it is the identity.  External effects (the
TensorFlow model, the generative-text service) are passed in as explicit
parameters; a JavaScript exception is modelled by `Option.none` in the
result type of the function that raises.
-/

/-- A party member, as in the `Character` interface: three required
numeric attributes and three optional ones. -/
structure Character where
  name : String
  type : String
  strength : ℚ
  agility : ℚ
  health : ℚ
  mana : Option ℚ
  dexterity : Option ℚ
  wisdom : Option ℚ
deriving DecidableEq

/-- An encounter descriptor: a single discriminant string. -/
structure Encounter where
  event_type : String
deriving DecidableEq

/-- Feature extractor: the 14-element feature vector, built exactly as in
the source (six attribute folds, four class-count filters, three
encounter flags). -/
def prepareDataForModel (party : List Character) (encounter : Encounter) :
    List ℚ :=
  let totalStrength := party.foldl (fun sum c => sum + c.strength) 0
  let totalHealth := party.foldl (fun sum c => sum + c.health) 0
  let totalAgility := party.foldl (fun sum c => sum + c.agility) 0
  let totalMana := party.foldl (fun sum c => sum + c.mana.getD 0) 0
  let totalDexterity := party.foldl (fun sum c => sum + c.dexterity.getD 0) 0
  let totalWisdom := party.foldl (fun sum c => sum + c.wisdom.getD 0) 0
  let numMages := (party.filter (fun c => c.type == "Mage")).length
  let numBarbarians := (party.filter (fun c => c.type == "Barbarian")).length
  let numRogues := (party.filter (fun c => c.type == "Rogue")).length
  let numBandits := (party.filter (fun c => c.type == "Bandit")).length
  let isDragonFight : ℚ := if encounter.event_type = "Dragon Fight" then 1 else 0
  let isAncientTrap : ℚ := if encounter.event_type = "Ancient Trap" then 1 else 0
  let isMysticPuzzle : ℚ := if encounter.event_type = "Mystic Puzzle" then 1 else 0
  [(party.length : ℚ), totalStrength, totalHealth, totalAgility, totalMana,
    totalDexterity, totalWisdom, (numMages : ℚ), (numBarbarians : ℚ),
    (numRogues : ℚ), (numBandits : ℚ), isDragonFight, isAncientTrap,
    isMysticPuzzle]

/-- Per-encounter attribute weight profile (`StatWeights`). -/
structure StatWeights where
  strength : ℚ
  agility : ℚ
  health : ℚ
  mana : ℚ
  dexterity : ℚ
  wisdom : ℚ
deriving DecidableEq

/-- Weight table of `getStatWeights`, one case per known encounter type
plus the uniform default. -/
def getStatWeights (eventType : String) : StatWeights :=
  if eventType = "Dragon Fight" then
    ⟨1.3, 1.1, 1.2, 1.1, 1.0, 0.9⟩
  else if eventType = "Ancient Trap" then
    ⟨0.8, 1.3, 1.0, 0.9, 1.4, 1.2⟩
  else if eventType = "Mystic Puzzle" then
    ⟨0.7, 0.9, 0.8, 1.3, 1.0, 1.5⟩
  else
    ⟨1.0, 1.0, 1.0, 1.0, 1.0, 1.0⟩

/-- Difficulty multiplier of `getDifficultyMultiplier`. -/
def getDifficultyMultiplier (eventType : String) : ℚ :=
  if eventType = "Dragon Fight" then 0.85
  else if eventType = "Ancient Trap" then 0.9
  else if eventType = "Mystic Puzzle" then 1.0
  else 0.95

/-- Difficulty label of `getEncounterDifficulty`. -/
def getEncounterDifficulty (eventType : String) : String :=
  if eventType = "Dragon Fight" then "Hard"
  else if eventType = "Ancient Trap" then "Medium"
  else if eventType = "Mystic Puzzle" then "Easy"
  else "Unknown"

/-- Decision table of `getRecommendedAction`: raw attribute thresholds
keyed by encounter type. -/
def getRecommendedAction (character : Character) (eventType : String) :
    String :=
  let str := character.strength
  let agi := character.agility
  let dex := character.dexterity.getD 0
  let wis := character.wisdom.getD 0
  let mana := character.mana.getD 0
  if eventType = "Dragon Fight" then
    if str > 15 then "Power Attack"
    else if mana > 15 then "Cast Fireball"
    else if agi > 15 then "Dodge and Weave"
    else "Defensive Stance"
  else if eventType = "Ancient Trap" then
    if dex > 15 then "Disarm Trap"
    else if wis > 15 then "Analyze Mechanism"
    else if agi > 15 then "Evade Pressure Plate"
    else "Provide Lookout"
  else if eventType = "Mystic Puzzle" then
    if wis > 15 then "Decipher Runes"
    else if mana > 15 then "Channel Insight"
    else if dex > 10 then "Manipulate Artifact"
    else "Observe Patterns"
  else "Take Action"

/-- Sum of the six weights (`Object.values(weights).reduce`). -/
def totalWeight (w : StatWeights) : ℚ :=
  w.strength + w.agility + w.health + w.mana + w.dexterity + w.wisdom

/-- The weighted stat sum of one character (`charTotalWeighted`). -/
def charTotalWeighted (w : StatWeights) (c : Character) : ℚ :=
  c.strength * w.strength + c.agility * w.agility + c.health * w.health +
    c.mana.getD 0 * w.mana + c.dexterity.getD 0 * w.dexterity +
    c.wisdom.getD 0 * w.wisdom

/-- The clamped (not yet rounded) per-character success rate computed in
the body of `getWeightedAnalysis`. -/
def charSuccessRateQ (eventType : String) (c : Character) : ℚ :=
  let weights := getStatWeights eventType
  let charBaseRate := charTotalWeighted weights c / (totalWeight weights * 15)
  min 95 (max 15 (20 + charBaseRate * 75 * getDifficultyMultiplier eventType))

/-- One entry of `individual_success_rates`. -/
structure IndividualRate where
  character : String
  success_rate : ℤ
  recommended_action : String
deriving DecidableEq

/-- The record built for one character inside `getWeightedAnalysis`. -/
def individualRate (eventType : String) (c : Character) : IndividualRate :=
  ⟨c.name, round (charSuccessRateQ eventType c), getRecommendedAction c eventType⟩

/-- The attribute keys usable with `findBest`
(`keyof Omit<Character, "name" | "type">`). -/
inductive StatKey where
  | strength
  | agility
  | health
  | mana
  | dexterity
  | wisdom
deriving DecidableEq

/-- Attribute lookup `char[stat] || 0`. -/
def getStat (k : StatKey) (c : Character) : ℚ :=
  match k with
  | .strength => c.strength
  | .agility => c.agility
  | .health => c.health
  | .mana => c.mana.getD 0
  | .dexterity => c.dexterity.getD 0
  | .wisdom => c.wisdom.getD 0

/-- The loop of `party.reduce` in `findBest`: the accumulator starts at
the first element and is replaced only on a strictly greater value. -/
def findBestAux (k : StatKey) : Character → List Character → Character
  | best, [] => best
  | best, c :: rest =>
      findBestAux k (if getStat k c > getStat k best then c else best) rest

/-- `findBest` from `generateRecommendations`: `Array.prototype.reduce`
with no initial value, which throws on an empty list (modelled by
`none`). -/
def findBest (k : StatKey) : List Character → Option Character
  | [] => none
  | c :: rest => some (findBestAux k c rest)

/-- Tier comment for a success chance below 40. -/
def challengingMsg : String :=
  "This is a highly challenging encounter. Survival should be the top priority; focus on defensive abilities and healing."

/-- Tier comment for a success chance above 75. -/
def advantageMsg : String :=
  "Your party has a clear advantage. A coordinated, aggressive strategy should secure a swift victory."

/-- Tier comment for the middle band. -/
def balancedMsg : String :=
  "The odds are balanced. A smart, tactical approach combining offense and defense is crucial for success."

/-- The threshold chain that picks the first recommendation. -/
def tierComment (successChance : ℚ) : String :=
  if successChance < 40 then challengingMsg
  else if successChance > 75 then advantageMsg
  else balancedMsg

/-- Dragon Fight tank callout. -/
def dragonTankLine (c : Character) : String :=
  "Let " ++ c.name ++ " draw the dragon\x27s attention while others attack from the flanks."

/-- Dragon Fight damage callout. -/
def dragonStrengthLine (c : Character) : String :=
  c.name ++ " should focus on dealing maximum physical damage."

/-- Ancient Trap scout callout. -/
def trapScoutLine (c : Character) : String :=
  c.name ++ " should take the lead to scout for and disarm any traps."

/-- Ancient Trap spotter callout. -/
def trapSpotLine (c : Character) : String :=
  c.name ++ " can assist by spotting the trap mechanisms from a distance."

/-- Mystic Puzzle wisdom callout. -/
def puzzleWisdomLine (c : Character) : String :=
  "The party should rely on " ++ c.name ++ "\x27s wisdom to solve the core puzzle."

/-- Mystic Puzzle mana callout. -/
def puzzleManaLine (c : Character) : String :=
  c.name ++ " could use their mana to reveal hidden clues or magical auras."

/-- `generateRecommendations`: the tier comment followed by the
encounter-specific callouts.  A `findBest` call on an empty party throws
in the source, so the whole call is modelled as `none` in that case. -/
def generateRecommendations (party : List Character) (encounter : Encounter)
    (successChance : ℚ) : Option (List String) :=
  let tier := tierComment successChance
  if encounter.event_type = "Dragon Fight" then
    match findBest .health party, findBest .strength party with
    | some tank, some strongest =>
        some [tier, dragonTankLine tank, dragonStrengthLine strongest]
    | _, _ => none
  else if encounter.event_type = "Ancient Trap" then
    match findBest .dexterity party, findBest .wisdom party with
    | some nimble, some wiseTrap =>
        some ([tier, trapScoutLine nimble] ++
          (if wiseTrap.name ≠ nimble.name then [trapSpotLine wiseTrap] else []))
    | _, _ => none
  else if encounter.event_type = "Mystic Puzzle" then
    match findBest .wisdom party, findBest .mana party with
    | some wise, some mage =>
        some ([tier, puzzleWisdomLine wise] ++
          (if mage.name ≠ wise.name then [puzzleManaLine mage] else []))
    | _, _ => none
  else some [tier]

/-- `fallbackActions`: the deterministic action list used when the
generative call fails. -/
def fallbackActions (character : Character) (eventType : String) :
    List String :=
  let primaryAction := getRecommendedAction character eventType
  ("Primary: " ++ primaryAction) ::
    ((if eventType = "Dragon Fight" then
        ["Alternative: Use a defensive maneuver."]
      else if eventType = "Ancient Trap" then
        ["Alternative: Search the area for triggers."]
      else []) ++ ["Default: Take the \x27Dodge\x27 action."])

/-- Outcome of the generative-text call in `generateTurnSpecificActions`:
`failure` covers a raised error, an unparsable response and a parsed
value that is not an array; `arrayResult` is a successfully parsed JSON
array. -/
inductive GenResult where
  | failure
  | arrayResult (actions : List String)
deriving DecidableEq

/-- `generateTurnSpecificActions` with the generative service's outcome
passed in explicitly: an array result is returned as-is, any failure
falls back to `fallbackActions`. -/
def generateTurnSpecificActions (gen : GenResult) (character : Character)
    (eventType : String) : List String :=
  match gen with
  | .arrayResult actions => actions
  | .failure => fallbackActions character eventType

/-- `getWeightedAnalysis`: the per-character rates and the strategic
recommendations; `none` when `generateRecommendations` throws. -/
def getWeightedAnalysis (party : List Character) (encounter : Encounter)
    (partySuccessChance : ℚ) : Option (List IndividualRate × List String) :=
  let individualRates := party.map (individualRate encounter.event_type)
  match generateRecommendations party encounter partySuccessChance with
  | none => none
  | some recs => some (individualRates, recs)

/-- `getTFJSAnalysis` with the loaded model passed in explicitly as an
optional prediction function (the resolved `modelPromise`): `none` means
loading failed and the fixed default 50 is returned, otherwise the
prediction on the feature vector is scaled to a rounded percentage. -/
def getTFJSAnalysis (model : Option (List ℚ → ℚ)) (party : List Character)
    (encounter : Encounter) : ℤ :=
  match model with
  | none => 50
  | some predict =>
      round (predict (prepareDataForModel party encounter) * 100)

/-- The aggregate analysis object returned to the caller. -/
structure AnalysisResult where
  party_success_chance : ℤ
  individual_success_rates : List IndividualRate
  encounter_difficulty : String
  strategic_recommendations : List String
  current_turn_actions : List String
deriving DecidableEq

/-- `analyzePartyVsEncounter`: sequences model inference, heuristic
scoring and recommendation composition; `none` models the exception that
propagates out of `getWeightedAnalysis`. -/
def analyzePartyVsEncounter (model : Option (List ℚ → ℚ)) (gen : GenResult)
    (party : List Character) (encounter : Encounter)
    (currentTurnCharacterName : String) : Option AnalysisResult :=
  let finalSuccessChance := getTFJSAnalysis model party encounter
  match getWeightedAnalysis party encounter (finalSuccessChance : ℚ) with
  | none => none
  | some wa =>
      let turnActions : List String :=
        match party.find? (fun c => c.name == currentTurnCharacterName) with
        | some currentCharacter =>
            generateTurnSpecificActions gen currentCharacter encounter.event_type
        | none => []
      some ⟨finalSuccessChance, wa.1, getEncounterDifficulty encounter.event_type,
        wa.2, turnActions⟩

/-- The parsed JSON request body; `none` in a field models its absence. -/
structure RequestBody where
  party : Option (List Character)
  encounter : Option Encounter
  current_turn_character : Option String
deriving DecidableEq

/-- The HTTP response produced by the route: either a success payload
with an analysis object, or an error payload with a status code and a
message (and no analysis object). -/
inductive ApiResponse where
  | ok (analysis : AnalysisResult)
  | error (status : ℕ) (message : String)
deriving DecidableEq

/-- The 400 validation message. -/
def missingFieldsMsg : String :=
  "Missing required fields: party, encounter, current_turn_character"

/-- The generic 500 message. -/
def analysisFailedMsg : String := "Failed to analyze party composition"

/-- The `POST` handler: the three-field truthiness check (a missing field
or an empty current-turn name is falsy and yields 400), then the
analysis, with any thrown error mapped to the generic 500 response. -/
def POST (model : Option (List ℚ → ℚ)) (gen : GenResult)
    (body : RequestBody) : ApiResponse :=
  match body.party, body.encounter, body.current_turn_character with
  | some party, some encounter, some ctc =>
      if ctc.isEmpty then ApiResponse.error 400 missingFieldsMsg
      else
        match analyzePartyVsEncounter model gen party encounter ctc with
        | some analysis => ApiResponse.ok analysis
        | none => ApiResponse.error 500 analysisFailedMsg
  | _, _, _ => ApiResponse.error 400 missingFieldsMsg

/-! ## Helper lemmas -/

/-- A left fold that adds `f` of each element equals the sum of the map. -/
theorem foldl_add_map (f : Character → ℚ) (l : List Character) (a : ℚ) :
    l.foldl (fun s c => s + f c) a = a + (l.map f).sum := by
  induction l generalizing a with
  | nil => simp
  | cons c cs ih => simp [ih, add_assoc]

/-- Structural evaluation of `generateRecommendations` on a non-empty
party: the tier comment followed by the encounter-specific callouts. -/
theorem generateRecommendations_cons (c : Character) (cs : List Character)
    (e : Encounter) (s : ℚ) :
    generateRecommendations (c :: cs) e s =
      some (tierComment s ::
        (if e.event_type = "Dragon Fight" then
          [dragonTankLine (findBestAux .health c cs),
           dragonStrengthLine (findBestAux .strength c cs)]
        else if e.event_type = "Ancient Trap" then
          trapScoutLine (findBestAux .dexterity c cs) ::
            (if (findBestAux .wisdom c cs).name ≠ (findBestAux .dexterity c cs).name
              then [trapSpotLine (findBestAux .wisdom c cs)] else [])
        else if e.event_type = "Mystic Puzzle" then
          puzzleWisdomLine (findBestAux .wisdom c cs) ::
            (if (findBestAux .mana c cs).name ≠ (findBestAux .wisdom c cs).name
              then [puzzleManaLine (findBestAux .mana c cs)] else [])
        else [])) := by
  simp only [generateRecommendations, findBest]
  split_ifs <;> simp

/-! ## Claims -/

/-- C1: `prepareDataForModel` returns exactly 14 numbers in the fixed
order [party_size, total_strength, total_health, total_agility,
total_mana, total_dexterity, total_wisdom, count_Mage, count_Barbarian,
count_Rogue, count_Bandit, is_DragonFight, is_AncientTrap,
is_MysticPuzzle], with absent optional attributes contributing 0, each
encounter flag 1 exactly when `event_type` equals the corresponding
string, and an empty party yielding 0 for the size, aggregate and
class-count fields. -/
theorem prepareDataForModel_feature_vector (party : List Character)
    (e : Encounter) :
    prepareDataForModel party e =
      [(party.length : ℚ),
       (party.map (fun c => c.strength)).sum,
       (party.map (fun c => c.health)).sum,
       (party.map (fun c => c.agility)).sum,
       (party.map (fun c => c.mana.getD 0)).sum,
       (party.map (fun c => c.dexterity.getD 0)).sum,
       (party.map (fun c => c.wisdom.getD 0)).sum,
       ((party.countP (fun c => c.type == "Mage")) : ℚ),
       ((party.countP (fun c => c.type == "Barbarian")) : ℚ),
       ((party.countP (fun c => c.type == "Rogue")) : ℚ),
       ((party.countP (fun c => c.type == "Bandit")) : ℚ),
       (if e.event_type = "Dragon Fight" then 1 else 0),
       (if e.event_type = "Ancient Trap" then 1 else 0),
       (if e.event_type = "Mystic Puzzle" then 1 else 0)] ∧
    (prepareDataForModel party e).length = 14 ∧
    prepareDataForModel [] e =
      [0, 0, 0, 0, 0, 0, 0, 0, 0, 0, 0,
       (if e.event_type = "Dragon Fight" then 1 else 0),
       (if e.event_type = "Ancient Trap" then 1 else 0),
       (if e.event_type = "Mystic Puzzle" then 1 else 0)] := by
  refine ⟨?_, ?_, ?_⟩
  · simp [prepareDataForModel, foldl_add_map, List.countP_eq_length_filter]
  · simp [prepareDataForModel]
  · simp [prepareDataForModel]

/-- A one-member party used as the C2 counterexample input. -/
def solo : Character := ⟨"Solo", "Barbarian", 20, 10, 30, none, none, none⟩

/-- C2 counterexample: in a Dragon Fight with a single character, both
encounter-specific lines name the same individual ("Solo") and the
second line is NOT skipped — the result has three entries, while the
claim's skip rule would leave only two. -/
theorem dragon_same_individual_not_skipped :
    generateRecommendations [solo] ⟨"Dragon Fight"⟩ 50 =
      some [balancedMsg,
        "Let Solo draw the dragon\x27s attention while others attack from the flanks.",
        "Solo should focus on dealing maximum physical damage."] ∧
    (generateRecommendations [solo] ⟨"Dragon Fight"⟩ 50).map List.length =
      some 3 := by
  constructor <;> decide

/-- C2 (amended): after the tier comment, the encounter-specific lines
name the party's best character by the given attribute (health then
strength for Dragon Fight, dexterity then wisdom for Ancient Trap,
wisdom then mana for Mystic Puzzle, none for other types); the second
line is skipped when its character's name equals the first line's
character's name for Ancient Trap and Mystic Puzzle, while Dragon Fight
always emits both lines. -/
theorem recommendations_encounter_lines (c : Character) (cs : List Character)
    (e : Encounter) (s : ℚ) :
    generateRecommendations (c :: cs) e s =
      some (tierComment s ::
        (if e.event_type = "Dragon Fight" then
          [dragonTankLine (findBestAux .health c cs),
           dragonStrengthLine (findBestAux .strength c cs)]
        else if e.event_type = "Ancient Trap" then
          trapScoutLine (findBestAux .dexterity c cs) ::
            (if (findBestAux .wisdom c cs).name ≠ (findBestAux .dexterity c cs).name
              then [trapSpotLine (findBestAux .wisdom c cs)] else [])
        else if e.event_type = "Mystic Puzzle" then
          puzzleWisdomLine (findBestAux .wisdom c cs) ::
            (if (findBestAux .mana c cs).name ≠ (findBestAux .wisdom c cs).name
              then [puzzleManaLine (findBestAux .mana c cs)] else [])
        else [])) :=
  generateRecommendations_cons c cs e s

/-- C5: whenever a recommendation list is produced, its first entry is
the challenging tier comment exactly when the success percentage is
below 40, the advantage tier comment exactly when it is above 75, and
the balanced tier comment otherwise — including exactly 40 and exactly
75. -/
theorem firstRecommendation_tier (party : List Character) (e : Encounter)
    (s : ℚ) (recs : List String)
    (h : generateRecommendations party e s = some recs) :
    recs.head? = some (if s < 40 then challengingMsg
      else if s > 75 then advantageMsg else balancedMsg) := by
  cases party with
  | nil =>
      simp only [generateRecommendations, findBest] at h
      split_ifs at h
      injection h with h
      subst h
      simp [tierComment]
  | cons c cs =>
      rw [generateRecommendations_cons] at h
      injection h with h
      subst h
      simp [tierComment]

/-- C5 witness: at success chance exactly 40 with an unknown encounter
type the produced first entry is the balanced tier comment. -/
theorem firstRecommendation_tier_witness :
    generateRecommendations [] ⟨"Goblin Ambush"⟩ 40 = some [balancedMsg] ∧
    ([balancedMsg] : List String).head? =
      some (if (40:ℚ) < 40 then challengingMsg
        else if (40:ℚ) > 75 then advantageMsg else balancedMsg) :=
  ⟨by decide, firstRecommendation_tier [] ⟨"Goblin Ambush"⟩ 40 [balancedMsg]
    (by decide)⟩

/-- Rounding on rationals is monotone. -/
theorem round_mono_q {x y : ℚ} (h : x ≤ y) : round x ≤ round y := by
  rw [round_eq, round_eq]
  exact Int.floor_le_floor (by linarith)

/-- The clamped per-character rate lies between 15 and 95. -/
theorem charSuccessRateQ_bounds (e : String) (c : Character) :
    (15:ℚ) ≤ charSuccessRateQ e c ∧ charSuccessRateQ e c ≤ 95 := by
  unfold charSuccessRateQ
  exact ⟨le_min (by norm_num) (le_max_left _ _), min_le_left _ _⟩

/-- C3: the per-character heuristic success rate equals
round(clamp(20 + base_rate * 75 * difficulty_multiplier, 15, 95)) with
base_rate the weighted attribute sum over (weight total * 15); the
difficulty multiplier is 0.85 / 0.90 / 1.00 / 0.95 per encounter type;
and the reported rate always lies in [15, 95]. -/
theorem individualRate_success_rate (e : String) (c : Character) :
    (individualRate e c).success_rate =
      round (min 95 (max 15
        (20 + charTotalWeighted (getStatWeights e) c /
          (totalWeight (getStatWeights e) * 15) * 75 *
            getDifficultyMultiplier e))) ∧
    15 ≤ (individualRate e c).success_rate ∧
    (individualRate e c).success_rate ≤ 95 ∧
    (∀ s : String, getDifficultyMultiplier s =
      if s = "Dragon Fight" then 0.85
      else if s = "Ancient Trap" then 0.9
      else if s = "Mystic Puzzle" then 1.0 else 0.95) := by
  obtain ⟨hlo, hhi⟩ := charSuccessRateQ_bounds e c
  have h15 : round ((15:ℚ)) = 15 := round_ofNat 15
  have h95 : round ((95:ℚ)) = 95 := round_ofNat 95
  refine ⟨rfl, ?_, ?_, fun s => rfl⟩
  · have := round_mono_q hlo
    rw [h15] at this
    exact this
  · have := round_mono_q hhi
    rw [h95] at this
    exact this

/-- C4: when the model promise resolved to null, `getTFJSAnalysis`
returns exactly 50 for every party and encounter, and on any non-empty
party the analysis completes normally with `party_success_chance` 50
rather than surfacing an error. -/
theorem modelUnavailable_defaults_to_50 (party : List Character)
    (e : Encounter) (gen : GenResult) (ctc : String) (c : Character)
    (cs : List Character) :
    getTFJSAnalysis none party e = 50 ∧
    ∃ r, analyzePartyVsEncounter none gen (c :: cs) e ctc = some r ∧
      r.party_success_chance = 50 := by
  refine ⟨rfl, ?_⟩
  have hrec := generateRecommendations_cons c cs e
    ((getTFJSAnalysis none (c :: cs) e : ℤ) : ℚ)
  simp only [analyzePartyVsEncounter, getWeightedAnalysis, hrec]
  exact ⟨_, rfl, rfl⟩

/-- C6: on any generative failure the turn actions are the deterministic
fallback list: the Heuristic Scorer's primary action, one
encounter-specific alternative for Dragon Fight or Ancient Trap only,
then the Dodge default; the list always has 2 or 3 items and contains
the Dodge default. -/
theorem genFailure_fallback (c : Character) (et : String) :
    generateTurnSpecificActions .failure c et = fallbackActions c et ∧
    fallbackActions c et =
      ("Primary: " ++ getRecommendedAction c et) ::
        ((if et = "Dragon Fight" then
            ["Alternative: Use a defensive maneuver."]
          else if et = "Ancient Trap" then
            ["Alternative: Search the area for triggers."]
          else []) ++ ["Default: Take the \x27Dodge\x27 action."]) ∧
    "Default: Take the \x27Dodge\x27 action." ∈ fallbackActions c et ∧
    2 ≤ (fallbackActions c et).length ∧ (fallbackActions c et).length ≤ 3 := by
  refine ⟨rfl, rfl, ?_, ?_, ?_⟩ <;>
    (unfold fallbackActions; split_ifs <;> simp)

/-- C7: a request body missing any of the three top-level fields gets
the 400 validation response with the descriptive message, which carries
no analysis object; no analysis is performed. -/
theorem missingField_gives_400 (model : Option (List ℚ → ℚ))
    (gen : GenResult) (body : RequestBody)
    (h : body.party = none ∨ body.encounter = none ∨
      body.current_turn_character = none) :
    POST model gen body = ApiResponse.error 400 missingFieldsMsg := by
  obtain ⟨p, e, t⟩ := body
  simp only at h
  cases p <;> cases e <;> cases t <;> simp_all [POST]

/-- C7 witness: a concrete request with no `party` field is rejected
with status 400. -/
theorem missingField_gives_400_witness :
    POST none .failure ⟨none, some ⟨"Dragon Fight"⟩, some "Thane"⟩ =
      ApiResponse.error 400 missingFieldsMsg :=
  missingField_gives_400 none .failure _ (Or.inl rfl)

/-- The accumulator's attribute never exceeds that of the reduce result. -/
theorem findBestAux_le (k : StatKey) (c : Character) (cs : List Character) :
    getStat k c ≤ getStat k (findBestAux k c cs) := by
  induction cs generalizing c with
  | nil => exact le_refl _
  | cons y ys ih =>
      by_cases h : getStat k y > getStat k c
      · calc getStat k c ≤ getStat k y := le_of_lt h
          _ ≤ getStat k (findBestAux k y ys) := ih y
          _ = getStat k (findBestAux k c (y :: ys)) := by
              simp [findBestAux, if_pos h]
      · simpa [findBestAux, if_neg h] using ih c

/-- The reduce result is a member of the party. -/
theorem findBestAux_mem (k : StatKey) (c : Character) (cs : List Character) :
    findBestAux k c cs ∈ c :: cs := by
  induction cs generalizing c with
  | nil => simp [findBestAux]
  | cons y ys ih =>
      by_cases h : getStat k y > getStat k c
      · rw [findBestAux, if_pos h]
        exact List.mem_cons_of_mem _ (ih y)
      · rw [findBestAux, if_neg h]
        rcases List.mem_cons.mp (ih c) with h1 | h1
        · rw [h1]
          exact List.mem_cons_self _ _
        · exact List.mem_cons_of_mem _ (List.mem_cons_of_mem _ h1)

/-- The reduce result attains the maximum attribute value. -/
theorem findBestAux_max (k : StatKey) (c : Character) (cs : List Character) :
    ∀ x ∈ c :: cs, getStat k x ≤ getStat k (findBestAux k c cs) := by
  induction cs generalizing c with
  | nil =>
      intro x hx
      rcases List.mem_cons.mp hx with rfl | h
      · exact le_refl _
      · simp at h
  | cons y ys ih =>
      intro x hx
      by_cases h : getStat k y > getStat k c
      · simp only [findBestAux, if_pos h]
        rcases List.mem_cons.mp hx with rfl | hx'
        · exact le_trans (le_of_lt h) (findBestAux_le k y ys)
        · exact ih y x hx'
      · simp only [findBestAux, if_neg h]
        rcases List.mem_cons.mp hx with rfl | hx'
        · exact findBestAux_le k x ys
        · rcases List.mem_cons.mp hx' with rfl | hx''
          · exact le_trans (le_of_not_lt h) (findBestAux_le k c ys)
          · exact ih c x (List.mem_cons_of_mem _ hx'')

/-- The reduce result is the first list element attaining the maximum:
strict-greater updates keep the earliest of any tied characters. -/
theorem findBestAux_first_max (k : StatKey) (c : Character)
    (cs : List Character) :
    (c :: cs).find?
        (fun x => decide (getStat k x = getStat k (findBestAux k c cs))) =
      some (findBestAux k c cs) := by
  induction cs generalizing c with
  | nil => simp [findBestAux, List.find?]
  | cons y ys ih =>
      by_cases h : getStat k y > getStat k c
      · have hlt : getStat k c < getStat k (findBestAux k y ys) :=
          lt_of_lt_of_le h (findBestAux_le k y ys)
        have hstep : findBestAux k c (y :: ys) = findBestAux k y ys := by
          rw [findBestAux, if_pos h]
        rw [hstep, List.find?_cons_of_neg _ (by simp [ne_of_lt hlt])]
        exact ih y
      · have hstep : findBestAux k c (y :: ys) = findBestAux k c ys := by
          rw [findBestAux, if_neg h]
        rw [hstep]
        by_cases hc : getStat k c = getStat k (findBestAux k c ys)
        · have hcfirst := ih c
          rw [List.find?_cons_of_pos _ (by simpa using hc)] at hcfirst
          rw [List.find?_cons_of_pos _ (by simpa using hc)]
          exact hcfirst
        · have hyle : getStat k y ≤ getStat k c := le_of_not_lt h
          have hcle : getStat k c ≤ getStat k (findBestAux k c ys) :=
            findBestAux_le k c ys
          have hyne : ¬ getStat k y = getStat k (findBestAux k c ys) := by
            intro heq
            exact hc (le_antisymm hcle (heq ▸ hyle))
          have hcfirst := ih c
          rw [List.find?_cons_of_neg _ (by simpa using hc)] at hcfirst
          rw [List.find?_cons_of_neg _ (by simpa using hc),
            List.find?_cons_of_neg _ (by simpa using hyne)]
          exact hcfirst

/-- C8: with two or more characters tied for the maximum of the chosen
attribute, `findBest` deterministically selects the one occurring first
in party list order: the result is a member attaining the maximum, and
it is the first element whose attribute value equals that maximum. -/
theorem findBest_first_on_ties (k : StatKey) (c : Character)
    (cs : List Character) :
    findBest k (c :: cs) = some (findBestAux k c cs) ∧
    findBestAux k c cs ∈ c :: cs ∧
    (∀ x ∈ c :: cs, getStat k x ≤ getStat k (findBestAux k c cs)) ∧
    (c :: cs).find?
        (fun x => decide (getStat k x = getStat k (findBestAux k c cs))) =
      some (findBestAux k c cs) :=
  ⟨rfl, findBestAux_mem k c cs, findBestAux_max k c cs,
    findBestAux_first_max k c cs⟩

/-- First of two wisdom-tied characters. -/
def wiseA : Character := ⟨"Alia", "Mage", 5, 5, 5, some 10, some 5, some 20⟩

/-- Second of two wisdom-tied characters. -/
def wiseB : Character := ⟨"Borin", "Mage", 5, 5, 5, some 12, some 5, some 20⟩

/-- C8 witness: with two characters tied on wisdom, `findBest` selects
the first in list order. -/
theorem findBest_first_on_ties_witness :
    findBest .wisdom [wiseA, wiseB] =
      some (findBestAux .wisdom wiseA [wiseB]) ∧
    getStat .wisdom wiseB ≤ getStat .wisdom (findBestAux .wisdom wiseA [wiseB]) ∧
    findBestAux .wisdom wiseA [wiseB] = wiseA :=
  ⟨(findBest_first_on_ties .wisdom wiseA [wiseB]).1,
   (findBest_first_on_ties .wisdom wiseA [wiseB]).2.2.1 wiseB (by simp),
   by decide⟩

/-- The scenario party member of C9. -/
def thane : Character := ⟨"Thane", "Barbarian", 25, 10, 25, some 5, some 10, some 5⟩

/-- C9: the Thane / Dragon Fight scenario yields one individual rate,
difficulty "Hard" and recommended action "Power Attack"; in general any
character with strength above 15 gets "Power Attack" in a Dragon
Fight. -/
theorem thane_dragonFight_scenario (model : Option (List ℚ → ℚ))
    (gen : GenResult) (c : Character) (h : (15:ℚ) < c.strength) :
    (∃ r, analyzePartyVsEncounter model gen [thane] ⟨"Dragon Fight"⟩ "Thane" =
        some r ∧
      r.individual_success_rates.length = 1 ∧
      r.encounter_difficulty = "Hard" ∧
      r.individual_success_rates.map (fun ir => ir.recommended_action) =
        ["Power Attack"]) ∧
    getRecommendedAction c "Dragon Fight" = "Power Attack" := by
  constructor
  · have hrec := generateRecommendations_cons thane [] ⟨"Dragon Fight"⟩
      ((getTFJSAnalysis model [thane] ⟨"Dragon Fight"⟩ : ℤ) : ℚ)
    simp only [analyzePartyVsEncounter, getWeightedAnalysis, hrec]
    refine ⟨_, rfl, rfl, rfl, ?_⟩
    norm_num [individualRate, getRecommendedAction, thane]
  · simp [getRecommendedAction, h]

/-- C9 witness: the scenario instantiated with an unavailable model and
a failed generative call, and the strength rule applied to Thane. -/
theorem thane_dragonFight_scenario_witness :
    (15:ℚ) < thane.strength ∧
    ((∃ r, analyzePartyVsEncounter none .failure [thane] ⟨"Dragon Fight"⟩
          "Thane" = some r ∧
        r.individual_success_rates.length = 1 ∧
        r.encounter_difficulty = "Hard" ∧
        r.individual_success_rates.map (fun ir => ir.recommended_action) =
          ["Power Attack"]) ∧
      getRecommendedAction thane "Dragon Fight" = "Power Attack") :=
  ⟨by decide, thane_dragonFight_scenario none .failure thane (by decide)⟩

/-- C10: with a present but empty party and a recognized encounter type,
`generateRecommendations` throws (its `findBest` reduce has no initial
value), so the endpoint returns the generic 500 failure response and no
analysis object; the same request with an unrecognized event type
completes successfully because no `findBest` call is reached. -/
theorem emptyParty_known_event_500 (model : Option (List ℚ → ℚ))
    (gen : GenResult) (ctc : String) (hc : ctc.isEmpty = false)
    (e : Encounter)
    (he : e.event_type = "Dragon Fight" ∨ e.event_type = "Ancient Trap" ∨
      e.event_type = "Mystic Puzzle")
    (u : Encounter)
    (hu : u.event_type ≠ "Dragon Fight" ∧ u.event_type ≠ "Ancient Trap" ∧
      u.event_type ≠ "Mystic Puzzle") :
    (∀ s : ℚ, generateRecommendations [] e s = none) ∧
    POST model gen ⟨some [], some e, some ctc⟩ =
      ApiResponse.error 500 analysisFailedMsg ∧
    (∃ r, POST model gen ⟨some [], some u, some ctc⟩ = ApiResponse.ok r) := by
  obtain ⟨et⟩ := e
  obtain ⟨ut⟩ := u
  have hgen : ∀ s : ℚ, generateRecommendations [] ⟨et⟩ s = none := by
    intro s
    rcases he with h1 | h1 | h1 <;>
      simp_all [generateRecommendations, findBest]
  obtain ⟨h1, h2, h3⟩ := hu
  refine ⟨hgen, ?_, ?_⟩
  · simp [POST, hc, analyzePartyVsEncounter, getWeightedAnalysis, hgen]
  · refine ⟨⟨getTFJSAnalysis model [] ⟨ut⟩, [],
      getEncounterDifficulty ut,
      [tierComment ((getTFJSAnalysis model [] ⟨ut⟩ : ℤ) : ℚ)], []⟩, ?_⟩
    simp [POST, hc, analyzePartyVsEncounter, getWeightedAnalysis,
      generateRecommendations, findBest, getEncounterDifficulty, h1, h2, h3]

/-- C10 witness: the two halves instantiated at a Dragon Fight and at an
unrecognized "Goblin Ambush" encounter. -/
theorem emptyParty_known_event_500_witness :
    (∀ s : ℚ, generateRecommendations [] ⟨"Dragon Fight"⟩ s = none) ∧
    POST none .failure ⟨some [], some ⟨"Dragon Fight"⟩, some "Thane"⟩ =
      ApiResponse.error 500 analysisFailedMsg ∧
    (∃ r, POST none .failure ⟨some [], some ⟨"Goblin Ambush"⟩, some "Thane"⟩ =
      ApiResponse.ok r) :=
  emptyParty_known_event_500 none .failure "Thane" (by decide)
    ⟨"Dragon Fight"⟩ (Or.inl rfl) ⟨"Goblin Ambush"⟩
    ⟨by decide, by decide, by decide⟩
